import Mathlib

/-!
Verification of the pub/sub message-broker core of AgentServer
(`src/libs/messaging/src/kafka.rs` and `src/libs/messaging/src/pubsub.rs`),
as a shallow embedding in Lean 4.

The embedding models:
* `PubSubMessage` (pubsub.rs): optional key bytes plus payload bytes;
* the record construction performed by `KafkaBroker::publish`;
* the `NewTopic` request built by `KafkaBroker::create_topic`;
* `KafkaBroker::subscribe`: consumer registration followed by spawning a
  detached consumption loop, modelled as a trace-producing function
  `runLoop` over a finite prefix of poll results.

Bytes are modelled as `List Nat`; machine-level byte bounds are irrelevant
to every property proved here (payloads and keys are opaque to the broker).
-/

namespace AgentServer.Messaging

/-- Opaque byte sequences (payloads and keys). -/
abbrev Bytes := List Nat

/-- `PubSubMessage` from pubsub.rs: `key: Option<Vec<u8>>`, `payload: Vec<u8>`. -/
structure PubSubMessage where
  key : Option Bytes
  payload : Bytes
  deriving DecidableEq, Repr

/-- A message as received from the backing store by the consumption loop
(rdkafka `BorrowedMessage`): the payload and the key may each be absent,
and the record carries an offset that identifies it within its partition. -/
structure BorrowedMessage where
  key : Option Bytes
  payload : Option Bytes
  offset : Nat
  deriving DecidableEq, Repr

/-- `rdkafka::consumer::CommitMode`; the loop in kafka.rs always commits
with `CommitMode::Async`. -/
inductive CommitMode where
  | sync : CommitMode
  | async : CommitMode
  deriving DecidableEq, Repr

/-- Outcome of one handler invocation. The handler's Rust type returns unit,
so the only two observable outcomes are a normal return and a panic that
unwinds the spawned task. -/
inductive HandlerOutcome where
  | returns : HandlerOutcome
  | panics : HandlerOutcome
  deriving DecidableEq, Repr

/-- Observable events of one subscription's consumption loop, in the order
the loop produces them. -/
inductive Event where
  | handlerStart : PubSubMessage → Nat → Event
  | handlerReturn : Nat → Event
  | commitIssued : Nat → CommitMode → Event
  | commitErrorLogged : Nat → Event
  | pollErrorLogged : String → Event
  | panicked : Nat → Event
  deriving DecidableEq, Repr

/-- The message-conversion step of the loop body in `KafkaBroker::subscribe`:
`payload = detached_msg.payload().map_or(Vec::new(), |p| p.to_vec())` and
`key = detached_msg.key().map(|k| k.to_vec())`. -/
def toPubSub (m : BorrowedMessage) : PubSubMessage :=
  { key := m.key, payload := m.payload.getD [] }

/-- The trace of the `consumer.commit_message(&msg, CommitMode::Async)` call:
the call itself returns immediately (async mode); when it returns `Err`, the
loop logs `"Failed to commit message"` and proceeds regardless.
`commitOk off` is the return value of the commit call for offset `off`. -/
def commitCall (commitOk : Nat → Bool) (off : Nat) : List Event :=
  if commitOk off then [] else [Event.commitErrorLogged off]

/-- The detached consumption loop spawned by `KafkaBroker::subscribe`,
run on a finite prefix of poll results (`consumer.recv()` outcomes).

Per iteration:
* `Err(e)` from `recv`: the loop logs `"Error receiving message"` and
  continues with the next iteration;
* `Ok(msg)`: the loop converts the record (`toPubSub`), awaits
  `handler(message)`, then issues `commit_message(&msg, CommitMode::Async)`.
  If the handler panics, the spawned tokio task unwinds: nothing after the
  handler call runs and the loop is gone. -/
def runLoop (handler : PubSubMessage → HandlerOutcome) (commitOk : Nat → Bool) :
    List (Except String BorrowedMessage) → List Event
  | [] => []
  | Except.error e :: rest =>
      Event.pollErrorLogged e :: runLoop handler commitOk rest
  | Except.ok msg :: rest =>
      match handler (toPubSub msg) with
      | HandlerOutcome.panics =>
          [Event.handlerStart (toPubSub msg) msg.offset, Event.panicked msg.offset]
      | HandlerOutcome.returns =>
          Event.handlerStart (toPubSub msg) msg.offset ::
          Event.handlerReturn msg.offset ::
          Event.commitIssued msg.offset CommitMode.async ::
          (commitCall commitOk msg.offset ++ runLoop handler commitOk rest)

/-- Scans a trace front to back, accumulating the offsets whose handler has
already returned; holds when every commit in the trace is for an offset whose
handler invocation has previously returned. -/
def commitAfterHandleOk : List Nat → List Event → Bool
  | _, [] => true
  | seen, Event.handlerReturn o :: rest => commitAfterHandleOk (o :: seen) rest
  | seen, Event.commitIssued o _ :: rest =>
      decide (o ∈ seen) && commitAfterHandleOk seen rest
  | seen, _ :: rest => commitAfterHandleOk seen rest

/-- Holds when every commit in the trace was issued with `CommitMode.async`. -/
def commitsAllAsync : List Event → Bool
  | [] => true
  | Event.commitIssued _ m :: rest =>
      decide (m = CommitMode.async) && commitsAllAsync rest
  | _ :: rest => commitsAllAsync rest

/-- Recognises the log entry emitted when the async commit call returns
an error. -/
def isCommitErrorLog : Event → Bool
  | Event.commitErrorLogged _ => true
  | _ => false

/-- A trace with the commit-error log entries removed: everything the loop
does other than logging failed commit calls. -/
def dropCommitLogs (l : List Event) : List Event :=
  l.filter (fun e => !(isCommitErrorLog e))

/-- Recognises handler start/return events. -/
def isHandlerEvent : Event → Bool
  | Event.handlerStart _ _ => true
  | Event.handlerReturn _ => true
  | _ => false

/-- The messages successfully delivered by a sequence of poll results. -/
def delivered : List (Except String BorrowedMessage) → List BorrowedMessage :=
  List.filterMap (fun r =>
    match r with
    | Except.ok m => some m
    | Except.error _ => none)

/-- The canonical strictly-sequential dispatch trace over a list of
delivered messages: each handler invocation starts after the previous one
returned, in delivery order, and a panic ends the sequence. -/
def seqDispatch (handler : PubSubMessage → HandlerOutcome) :
    List BorrowedMessage → List Event
  | [] => []
  | m :: rest =>
      match handler (toPubSub m) with
      | HandlerOutcome.panics => [Event.handlerStart (toPubSub m) m.offset]
      | HandlerOutcome.returns =>
          Event.handlerStart (toPubSub m) m.offset ::
          Event.handlerReturn m.offset ::
          seqDispatch handler rest

/-- The record `KafkaBroker::publish` hands to `producer.send`
(rdkafka `FutureRecord`): builder fields are `Option`s, absent until the
corresponding builder method is called. -/
structure FutureRecord where
  topic : String
  payload : Bytes
  key : Option Bytes
  deriving DecidableEq, Repr

/-- `KafkaBroker::publish`'s record construction:
`let payload = message.payload; let key = message.key.unwrap_or_default();`
then `FutureRecord::to(topic).payload(&payload).key(&key)`.
The `.key` builder method is called unconditionally, so the record's key is
always present: an absent message key becomes the empty byte sequence. -/
def publish (topic : String) (message : PubSubMessage) : FutureRecord :=
  { topic := topic
    payload := message.payload
    key := some (message.key.getD []) }

/-- `rdkafka::admin::TopicReplication`. -/
inductive TopicReplication where
  | fixed : Int → TopicReplication
  deriving DecidableEq, Repr

/-- `rdkafka::admin::NewTopic`: name, partition count, replication. -/
structure NewTopic where
  name : String
  numPartitions : Int
  replication : TopicReplication
  deriving DecidableEq, Repr

/-- The topic-creation request `KafkaBroker::create_topic` builds:
`NewTopic::new(topic_name, 1, TopicReplication::Fixed(1))`. -/
def newTopicRequest (topicName : String) : NewTopic :=
  { name := topicName
    numPartitions := 1
    replication := TopicReplication.fixed 1 }

/-- Modelled from the spec: the backing store's topic registry, whose state
is the set of existing topic names, is not part of this repository (the
repository code only forwards the store's per-topic results). Per the spec,
"creating an existing topic is an error condition, not a no-op": the store
rejects creation of an existing topic and otherwise records the new one. -/
def storeCreateTopics (topics : List String) (t : String) :
    Except String (List String) :=
  if t ∈ topics then Except.error "TopicAlreadyExists"
  else Except.ok (t :: topics)

/-- `KafkaBroker::create_topic` against the modelled registry state: build
the `NewTopic` request, submit it, and map a per-topic store error `err` to
`Err(anyhow!("Failed to create topic: {}", err))`. On success the new
registry state is returned in place of the source's `Ok(())`. -/
def create_topic (topics : List String) (topicName : String) :
    Except String (List String) :=
  match storeCreateTopics topics (newTopicRequest topicName).name with
  | Except.ok ts => Except.ok ts
  | Except.error err => Except.error ("Failed to create topic: " ++ err)

/-- `KafkaBroker`'s resources: one shared producer and one shared consumer,
each held behind an `Arc`. The `Nat` fields are resource identities:
`Arc::clone` preserves them. -/
structure KafkaBroker where
  producerId : Nat
  consumerId : Nat
  deriving DecidableEq, Repr

/-- The state a spawned consumption loop owns: the topic it was subscribed
for and the identity of the consumer resource it pulls from and commits
through (`let consumer = Arc::clone(&self.consumer)` in subscribe). -/
structure Subscription where
  topic : String
  loopConsumer : Nat
  deriving DecidableEq, Repr

/-- What a `subscribe` call produces: the value returned to the caller and
the background loop it spawned, if any. -/
structure SubscribeOutcome where
  result : Except String Unit
  spawned : Option Subscription
  deriving Repr

/-- `KafkaBroker::subscribe`: `self.consumer.subscribe(&[topic])` is the
registration step, whose outcome is `regResult`. On registration error `e`
the call returns `Err(anyhow!("Failed to subscribe: {}", e))` via `?` and
spawns nothing. On registration success it clones the broker's consumer
`Arc`, spawns the detached loop over that same consumer, and returns
`Ok(())` immediately — before any message is processed, and with no
dependence on any per-message outcome. -/
def subscribe (b : KafkaBroker) (topic : String)
    (regResult : Except String Unit) : SubscribeOutcome :=
  match regResult with
  | Except.error e =>
      { result := Except.error ("Failed to subscribe: " ++ e)
        spawned := none }
  | Except.ok _ =>
      { result := Except.ok ()
        spawned := some { topic := topic, loopConsumer := b.consumerId } }

/-! Concrete fixtures used by witnesses and counterexamples. -/

/-- A sample delivered record: key `"k"`, payload `"hi"`, offset 0. -/
def msg0 : BorrowedMessage :=
  { key := some [107], payload := some [104, 105], offset := 0 }

/-- A sample delivered record with absent key and payload, offset 1. -/
def msg1 : BorrowedMessage :=
  { key := none, payload := none, offset := 1 }

/-- A handler that returns normally on every message. -/
def handlerReturnsAll : PubSubMessage → HandlerOutcome :=
  fun _ => HandlerOutcome.returns

/-- A handler that panics on every message. -/
def handlerPanicsAll : PubSubMessage → HandlerOutcome :=
  fun _ => HandlerOutcome.panics

/-- A commit-call behaviour where every commit call returns `Ok`. -/
def commitAllOk : Nat → Bool := fun _ => true

/-- A sample broker whose shared consumer resource has identity 7. -/
def broker0 : KafkaBroker := { producerId := 0, consumerId := 7 }

/-! Helper lemmas about the consumption-loop trace. -/

lemma commitAfterHandleOk_commitCall (c : Nat → Bool) (off : Nat)
    (seen : List Nat) (l : List Event) :
    commitAfterHandleOk seen (commitCall c off ++ l) =
      commitAfterHandleOk seen l := by
  cases hc : c off <;> simp [commitCall, hc, commitAfterHandleOk]

lemma commitAfterHandleOk_runLoop (h : PubSubMessage → HandlerOutcome)
    (c : Nat → Bool) :
    ∀ (polls : List (Except String BorrowedMessage)) (seen : List Nat),
      commitAfterHandleOk seen (runLoop h c polls) = true := by
  intro polls
  induction polls with
  | nil => intro seen; rfl
  | cons p rest ih =>
    intro seen
    cases p with
    | error e => simpa [runLoop, commitAfterHandleOk] using ih seen
    | ok msg =>
      cases hh : h (toPubSub msg) with
      | panics => simp [runLoop, hh, commitAfterHandleOk]
      | returns =>
        simp [runLoop, hh, commitAfterHandleOk,
          commitAfterHandleOk_commitCall, ih]

lemma commitsAllAsync_commitCall (c : Nat → Bool) (off : Nat)
    (l : List Event) :
    commitsAllAsync (commitCall c off ++ l) = commitsAllAsync l := by
  cases hc : c off <;> simp [commitCall, hc, commitsAllAsync]

lemma commitsAllAsync_runLoop (h : PubSubMessage → HandlerOutcome)
    (c : Nat → Bool) :
    ∀ polls : List (Except String BorrowedMessage),
      commitsAllAsync (runLoop h c polls) = true := by
  intro polls
  induction polls with
  | nil => rfl
  | cons p rest ih =>
    cases p with
    | error e => simpa [runLoop, commitsAllAsync] using ih
    | ok msg =>
      cases hh : h (toPubSub msg) with
      | panics => simp [runLoop, hh, commitsAllAsync]
      | returns =>
        simp [runLoop, hh, commitsAllAsync, commitsAllAsync_commitCall, ih]

lemma dropCommitLogs_commitCall (c : Nat → Bool) (off : Nat)
    (l : List Event) :
    dropCommitLogs (commitCall c off ++ l) = dropCommitLogs l := by
  cases hc : c off <;>
    simp [commitCall, hc, dropCommitLogs, isCommitErrorLog]

lemma dropCommitLogs_cons_start (m : PubSubMessage) (o : Nat)
    (l : List Event) :
    dropCommitLogs (Event.handlerStart m o :: l) =
      Event.handlerStart m o :: dropCommitLogs l := by
  simp [dropCommitLogs, List.filter_cons, isCommitErrorLog]

lemma dropCommitLogs_cons_return (o : Nat) (l : List Event) :
    dropCommitLogs (Event.handlerReturn o :: l) =
      Event.handlerReturn o :: dropCommitLogs l := by
  simp [dropCommitLogs, List.filter_cons, isCommitErrorLog]

lemma dropCommitLogs_cons_commit (o : Nat) (mo : CommitMode)
    (l : List Event) :
    dropCommitLogs (Event.commitIssued o mo :: l) =
      Event.commitIssued o mo :: dropCommitLogs l := by
  simp [dropCommitLogs, List.filter_cons, isCommitErrorLog]

lemma dropCommitLogs_cons_pollLog (e : String) (l : List Event) :
    dropCommitLogs (Event.pollErrorLogged e :: l) =
      Event.pollErrorLogged e :: dropCommitLogs l := by
  simp [dropCommitLogs, List.filter_cons, isCommitErrorLog]

lemma dropCommitLogs_runLoop_commitOk (h : PubSubMessage → HandlerOutcome)
    (c c' : Nat → Bool) :
    ∀ polls : List (Except String BorrowedMessage),
      dropCommitLogs (runLoop h c polls) =
        dropCommitLogs (runLoop h c' polls) := by
  intro polls
  induction polls with
  | nil => rfl
  | cons p rest ih =>
    cases p with
    | error e =>
      simp only [runLoop]
      rw [dropCommitLogs_cons_pollLog, dropCommitLogs_cons_pollLog, ih]
    | ok msg =>
      cases hh : h (toPubSub msg) with
      | panics => simp [runLoop, hh]
      | returns =>
        simp only [runLoop, hh]
        rw [dropCommitLogs_cons_start, dropCommitLogs_cons_start,
          dropCommitLogs_cons_return, dropCommitLogs_cons_return,
          dropCommitLogs_cons_commit, dropCommitLogs_cons_commit,
          dropCommitLogs_commitCall, dropCommitLogs_commitCall, ih]

lemma filterHandler_commitCall (c : Nat → Bool) (off : Nat) :
    List.filter isHandlerEvent (commitCall c off) = [] := by
  cases hc : c off <;> simp [commitCall, hc, isHandlerEvent]

lemma filterHandler_runLoop (h : PubSubMessage → HandlerOutcome)
    (c : Nat → Bool) :
    ∀ polls : List (Except String BorrowedMessage),
      (runLoop h c polls).filter isHandlerEvent =
        seqDispatch h (delivered polls) := by
  intro polls
  induction polls with
  | nil => rfl
  | cons p rest ih =>
    cases p with
    | error e =>
      simpa [runLoop, delivered, List.filter_cons, isHandlerEvent] using ih
    | ok msg =>
      cases hh : h (toPubSub msg) with
      | panics =>
        simp [runLoop, hh, delivered, seqDispatch, List.filter_cons,
          isHandlerEvent]
      | returns =>
        simp [runLoop, hh, delivered, seqDispatch, List.filter_cons,
          List.filter_append, isHandlerEvent, filterHandler_commitCall, ih]

/-! Claim theorems. -/

/-- Claim C1: for every message delivered to the consumption loop, the
commit for it is issued only after the handler invocation for it has
returned (at any point of the trace where a commit for offset `o` is
issued, a handler return for `o` has already occurred), every commit is
issued with `CommitMode.async`, and the loop's polling/dispatch behaviour
does not depend on commit-call outcomes (it never waits on a commit before
the next poll: traces under different commit-call results differ only in
the commit-error log entries). -/
theorem claim_C1_commit_after_handle
    (handler : PubSubMessage → HandlerOutcome) (c c' : Nat → Bool)
    (polls : List (Except String BorrowedMessage)) :
    commitAfterHandleOk [] (runLoop handler c polls) = true ∧
    commitsAllAsync (runLoop handler c polls) = true ∧
    dropCommitLogs (runLoop handler c polls) =
      dropCommitLogs (runLoop handler c' polls) :=
  ⟨commitAfterHandleOk_runLoop handler c polls [],
   commitsAllAsync_runLoop handler c polls,
   dropCommitLogs_runLoop_commitOk handler c c' polls⟩

/-- Claim C2 counterexample: after a poll error the loop does not stop in a
terminal state — on the poll sequence `[Err "connection lost", Ok msg0]` the
trace logs the poll error and then goes on to dispatch and commit `msg0`,
so the loop polled again after the failure. -/
theorem claim_C2_counterexample :
    runLoop handlerReturnsAll commitAllOk
        [Except.error "connection lost", Except.ok msg0] =
      [Event.pollErrorLogged "connection lost",
       Event.handlerStart (toPubSub msg0) 0,
       Event.handlerReturn 0,
       Event.commitIssued 0 CommitMode.async] ∧
    1 < (runLoop handlerReturnsAll commitAllOk
        [Except.error "connection lost", Except.ok msg0]).length := by
  constructor
  · rfl
  · decide

/-- Claim C2 amended: when the poll operation returns an error, the loop
logs the error and continues with the next poll iteration; it retries
indefinitely (a run of `n` consecutive poll errors yields `n` log entries
and the loop is still going), and never enters a terminal state. -/
theorem claim_C2_poll_error_logged_then_loop_continues
    (handler : PubSubMessage → HandlerOutcome) (c : Nat → Bool)
    (e : String) (rest : List (Except String BorrowedMessage)) (n : Nat) :
    runLoop handler c (Except.error e :: rest) =
      Event.pollErrorLogged e :: runLoop handler c rest ∧
    runLoop handler c (List.replicate n (Except.error e)) =
      List.replicate n (Event.pollErrorLogged e) := by
  refine ⟨rfl, ?_⟩
  induction n with
  | zero => rfl
  | succ k ih => simp [List.replicate_succ, runLoop, ih]

/-- Claim C5: within one subscription, handler invocations are strictly
sequential and in delivery order: the handler events of the loop's trace
are exactly the canonical alternating start/return sequence over the
delivered messages — each invocation returns before the next one starts,
in delivery order, with no overlap. -/
theorem claim_C5_handlers_sequential_in_order
    (handler : PubSubMessage → HandlerOutcome) (c : Nat → Bool)
    (polls : List (Except String BorrowedMessage)) :
    (runLoop handler c polls).filter isHandlerEvent =
      seqDispatch handler (delivered polls) :=
  filterHandler_runLoop handler c polls

/-- Claim C3 counterexample: two distinct subscriptions (different topics)
created on the same broker both run their loop over the broker's one
consumer resource (identity 7) — the consumer is shared, not exclusively
owned per subscription. -/
theorem claim_C3_counterexample :
    (subscribe broker0 "t1" (Except.ok ())).spawned =
      some { topic := "t1", loopConsumer := 7 } ∧
    (subscribe broker0 "t2" (Except.ok ())).spawned =
      some { topic := "t2", loopConsumer := 7 } ∧
    "t1" ≠ "t2" := by
  refine ⟨rfl, rfl, ?_⟩
  decide

/-- Claim C3 amended: every subscription created on a `KafkaBroker` runs
its consumption loop over the broker's single shared consumer resource
(`Arc::clone(&self.consumer)`): any two subscriptions from the same broker
use the same consumer instance, never a per-subscription one. -/
theorem claim_C3_all_subscriptions_use_broker_consumer
    (b : KafkaBroker) (t t' : String) :
    (subscribe b t (Except.ok ())).spawned =
      some { topic := t, loopConsumer := b.consumerId } ∧
    Option.map Subscription.loopConsumer
        (subscribe b t (Except.ok ())).spawned =
      Option.map Subscription.loopConsumer
        (subscribe b t' (Except.ok ())).spawned :=
  ⟨rfl, rfl⟩

/-- Claim C4 counterexample: with a handler that panics, the loop on
`[Ok msg0, Ok msg1]` produces only the handler start and the panic: the
spawned task dies — no commit for `msg0` is issued, no failure is logged
by the loop, and `msg1` is never dispatched. -/
theorem claim_C4_counterexample :
    runLoop handlerPanicsAll commitAllOk
        [Except.ok msg0, Except.ok msg1] =
      [Event.handlerStart (toPubSub msg0) 0, Event.panicked 0] ∧
    Event.commitIssued 0 CommitMode.async ∉
      runLoop handlerPanicsAll commitAllOk
        [Except.ok msg0, Except.ok msg1] ∧
    Event.handlerStart (toPubSub msg1) 1 ∉
      runLoop handlerPanicsAll commitAllOk
        [Except.ok msg0, Except.ok msg1] := by
  refine ⟨rfl, ?_, ?_⟩ <;> decide

/-- Claim C4 amended: the handler returns unit, so a handler-reported
failure is invisible to the loop, which commits every message after the
handler returns and carries on (the commit for the message appears in the
trace, and apart from commit-error log entries the trace continues with
the processing of the remaining polls); if instead the handler panics, the
spawned task unwinds: the trace ends at the panic, no commit for any
message is issued by that loop, and the message is not retried by it. -/
theorem claim_C4_handler_panic_ends_loop_without_commit
    (handler : PubSubMessage → HandlerOutcome) (c : Nat → Bool)
    (msg : BorrowedMessage) (rest : List (Except String BorrowedMessage)) :
    (handler (toPubSub msg) = HandlerOutcome.returns →
      Event.commitIssued msg.offset CommitMode.async ∈
        runLoop handler c (Except.ok msg :: rest) ∧
      dropCommitLogs (runLoop handler c (Except.ok msg :: rest)) =
        Event.handlerStart (toPubSub msg) msg.offset ::
        Event.handlerReturn msg.offset ::
        Event.commitIssued msg.offset CommitMode.async ::
        dropCommitLogs (runLoop handler c rest)) ∧
    (handler (toPubSub msg) = HandlerOutcome.panics →
      runLoop handler c (Except.ok msg :: rest) =
        [Event.handlerStart (toPubSub msg) msg.offset,
         Event.panicked msg.offset] ∧
      ∀ o mo, Event.commitIssued o mo ∉
        runLoop handler c (Except.ok msg :: rest)) := by
  constructor
  · intro hh
    constructor
    · simp [runLoop, hh]
    · simp only [runLoop, hh]
      rw [dropCommitLogs_cons_start, dropCommitLogs_cons_return,
        dropCommitLogs_cons_commit, dropCommitLogs_commitCall]
  · intro hh
    refine ⟨by simp [runLoop, hh], ?_⟩
    intro o mo
    simp [runLoop, hh]

/-- Witness for the amended Claim C4 at concrete inputs: a returning
handler gets its message committed; a panicking handler leaves only the
start event and the panic. -/
theorem claim_C4_witness :
    Event.commitIssued 0 CommitMode.async ∈
      runLoop handlerReturnsAll commitAllOk [Except.ok msg0] ∧
    runLoop handlerPanicsAll commitAllOk [Except.ok msg0] =
      [Event.handlerStart (toPubSub msg0) 0, Event.panicked 0] :=
  ⟨((claim_C4_handler_panic_ends_loop_without_commit
      handlerReturnsAll commitAllOk msg0 []).1 rfl).1,
   ((claim_C4_handler_panic_ends_loop_without_commit
      handlerPanicsAll commitAllOk msg0 []).2 rfl).1⟩

/-- Claim C6 counterexample: for a message with absent key, `publish` does
not send a record with no key — `message.key.unwrap_or_default()` followed
by the unconditional `.key(&key)` builder call yields a record whose key is
present and empty. -/
theorem claim_C6_counterexample :
    (publish "t" { key := none, payload := [104] }).key = some [] ∧
    (publish "t" { key := none, payload := [104] }).key ≠ none := by
  refine ⟨rfl, ?_⟩
  decide

/-- Claim C6 amended: `publish` always attaches a key to the record: an
absent message key becomes the empty byte sequence (so partition placement
is by hash of the empty key, not store-chosen/round-robin), a present key
is sent exactly, and the record's payload is byte-for-byte the message's
payload with no framing added. -/
theorem claim_C6_publish_record_shape (t : String) (m : PubSubMessage) :
    (publish t m).key = some (m.key.getD []) ∧
    (publish t m).payload = m.payload ∧
    (publish t m).topic = t :=
  ⟨rfl, rfl, rfl⟩

/-- Claim C7: for every topic name, `create_topic` builds a request with
exactly 1 partition and replication factor exactly 1, for that name. -/
theorem claim_C7_create_topic_config (t : String) :
    (newTopicRequest t).numPartitions = 1 ∧
    (newTopicRequest t).replication = TopicReplication.fixed 1 ∧
    (newTopicRequest t).name = t :=
  ⟨rfl, rfl, rfl⟩

/-- Claim C8: `create_topic` is not idempotent: for a topic name not in
the registry, creation succeeds and records the topic; a subsequent
creation of the same name fails with the mapped admin error, not a no-op
success. -/
theorem claim_C8_create_topic_not_idempotent
    (topics : List String) (t : String) (h : t ∉ topics) :
    create_topic topics t = Except.ok (t :: topics) ∧
    create_topic (t :: topics) t =
      Except.error "Failed to create topic: TopicAlreadyExists" := by
  constructor
  · simp [create_topic, storeCreateTopics, newTopicRequest, h]
  · simp [create_topic, storeCreateTopics, newTopicRequest]

/-- Witness for Claim C8 at a concrete topic name. -/
theorem claim_C8_witness :
    ("orders" ∉ ([] : List String)) ∧
    create_topic [] "orders" = Except.ok ["orders"] ∧
    create_topic ["orders"] "orders" =
      Except.error "Failed to create topic: TopicAlreadyExists" := by
  have h : ("orders" : String) ∉ ([] : List String) := by simp
  exact ⟨h, (claim_C8_create_topic_not_idempotent [] "orders" h).1,
    (claim_C8_create_topic_not_idempotent [] "orders" h).2⟩

/-- Claim C9: `subscribe` reflects only the registration step: on
registration error `e` it returns the mapped error and spawns no loop; on
registration success it returns `Ok(())` with the loop spawned — the value
returned to the caller is fixed at that point and per-message outcomes
(handler results, poll or commit errors, which only affect the spawned
loop's trace) are never reflected in it. -/
theorem claim_C9_subscribe_reflects_registration_only
    (b : KafkaBroker) (topic : String) (reg : Except String Unit) :
    (∀ e, reg = Except.error e →
      (subscribe b topic reg).result =
        Except.error ("Failed to subscribe: " ++ e) ∧
      (subscribe b topic reg).spawned = none) ∧
    (reg = Except.ok () →
      (subscribe b topic reg).result = Except.ok () ∧
      (subscribe b topic reg).spawned =
        some { topic := topic, loopConsumer := b.consumerId }) := by
  constructor
  · intro e he
    subst he
    exact ⟨rfl, rfl⟩
  · intro he
    subst he
    exact ⟨rfl, rfl⟩

/-- Witness for Claim C9 at concrete registration outcomes. -/
theorem claim_C9_witness :
    (subscribe broker0 "t" (Except.error "boom")).result =
      Except.error ("Failed to subscribe: " ++ "boom") ∧
    (subscribe broker0 "t" (Except.error "boom")).spawned = none ∧
    (subscribe broker0 "t" (Except.ok ())).result = Except.ok () ∧
    (subscribe broker0 "t" (Except.ok ())).spawned =
      some { topic := "t", loopConsumer := 7 } := by
  obtain ⟨h1, h2⟩ :=
    (claim_C9_subscribe_reflects_registration_only broker0 "t"
      (Except.error "boom")).1 "boom" rfl
  obtain ⟨h3, h4⟩ :=
    (claim_C9_subscribe_reflects_registration_only broker0 "t"
      (Except.ok ())).2 rfl
  exact ⟨h1, h2, h3, h4⟩

/-- Claim C10: the record-to-message conversion in the loop is total and
maps an absent record payload to the empty byte sequence and the record
key through unchanged (absent key stays `none`); a record with absent
payload is indistinguishable, after conversion, from the same record with
an empty payload. -/
theorem claim_C10_toPubSub_mapping (m : BorrowedMessage)
    (k : Option Bytes) (off : Nat) :
    (toPubSub m).key = m.key ∧
    (toPubSub m).payload = m.payload.getD [] ∧
    toPubSub { key := k, payload := none, offset := off } =
      toPubSub { key := k, payload := some [], offset := off } ∧
    (toPubSub { key := k, payload := none, offset := off }).payload = [] :=
  ⟨rfl, rfl, rfl, rfl⟩

end AgentServer.Messaging
